import Mathlib

/-!
Shallow embedding of the agent orchestration core of solana-hft-ninja:
the human-in-the-loop approval manager (`src/cerebro/agent/human_in_the_loop.py`),
the multi-agent coordinator and message bus
(`src/backup/cerebro_old/agent/multi_agent_system.py`), and the orchestration
loop's continuation logic (`src/cerebro/agent/langgraph_flow.py`).

Python floats are modelled as rationals (ℚ), wall-clock timestamps as explicit
ℚ parameters, and Python dicts keyed by strings/roles as association lists.
-/

/-! ### Association-list model of Python dicts -/

/-- Lookup in an association list, mirroring Python dict `d[k]` / `k in d`. -/
def alistLookup {κ α : Type} [DecidableEq κ] : List (κ × α) → κ → Option α
  | [], _ => none
  | (k, v) :: t, key => if k = key then some v else alistLookup t key

/-- Insert-or-replace, mirroring Python dict assignment `d[k] = v`. -/
def alistInsert {κ α : Type} [DecidableEq κ] : List (κ × α) → κ → α → List (κ × α)
  | [], key, v => [(key, v)]
  | (k, w) :: t, key, v => if k = key then (key, v) :: t else (k, w) :: alistInsert t key v

/-- Key removal, mirroring Python `del d[k]` (dict keys are unique). -/
def alistErase {κ α : Type} [DecidableEq κ] (l : List (κ × α)) (key : κ) : List (κ × α) :=
  l.filter (fun p => decide (p.1 ≠ key))

/-! ### human_in_the_loop.py: data model -/

/-- `ApprovalStatus` enum. -/
inductive ApprovalStatus
  | pending
  | approved
  | rejected
  | timeout
  | auto_approved
deriving DecidableEq, Repr

/-- `RiskLevel` enum. -/
inductive RiskLevel
  | low
  | medium
  | high
  | critical
deriving DecidableEq, Repr

/-- `TradingDecision` dataclass (the opaque `market_conditions` map and the
string timestamps are not read by any embedded operation and are omitted). -/
structure TradingDecision where
  decision_id : String
  strategy_type : String
  action : String
  token_symbol : String
  amount_sol : ℚ
  confidence_score : ℚ
  risk_level : RiskLevel
  reasoning : String
  max_loss : Option ℚ := none
deriving DecidableEq, Repr

/-- `ApprovalRequest` dataclass; ISO-format timestamps are modelled as ℚ. -/
structure ApprovalRequest where
  request_id : String
  decision : TradingDecision
  approval_status : ApprovalStatus
  created_at : ℚ
  expires_at : ℚ
  approved_by : Option String := none
  approved_at : Option ℚ := none
  rejection_reason : Option String := none
deriving DecidableEq, Repr

/-- The mutable state of `HumanInTheLoopManager`: the `pending_requests` dict
and the `approval_history` list. -/
structure HilState where
  pending : List (String × ApprovalRequest)
  history : List ApprovalRequest
deriving DecidableEq, Repr

/-- A manager with no pending requests and empty history (fresh `__init__`). -/
def hilEmpty : HilState := { pending := [], history := [] }

/-- `auto_approval_thresholds` table from `__init__`. -/
def auto_approval_thresholds : RiskLevel → ℚ
  | RiskLevel.low => 17 / 20
  | RiskLevel.medium => 19 / 20
  | RiskLevel.high => 1
  | RiskLevel.critical => 1

/-- `approval_timeouts` table (seconds) from `__init__`. -/
def approval_timeouts : RiskLevel → ℚ
  | RiskLevel.low => 300
  | RiskLevel.medium => 600
  | RiskLevel.high => 1800
  | RiskLevel.critical => 3600

/-- `_should_auto_approve`: `decision.confidence_score >= threshold`. -/
def should_auto_approve (decision : TradingDecision) : Bool :=
  decide (decision.confidence_score ≥ auto_approval_thresholds decision.risk_level)

/-- `request_approval`. `now` stands for `datetime.now()` / `time.time()` and
`request_id` for the time-derived id string. The third component of the result
collects the requests handed to the registered callbacks
(`_send_approval_notification`): empty on the auto-approval path. -/
def request_approval (s : HilState) (now : ℚ) (request_id : String)
    (decision : TradingDecision) : ApprovalRequest × HilState × List ApprovalRequest :=
  let timeout_seconds := approval_timeouts decision.risk_level
  let expires_at := now + timeout_seconds
  let approval_request : ApprovalRequest :=
    { request_id := request_id
      decision := decision
      approval_status := ApprovalStatus.pending
      created_at := now
      expires_at := expires_at }
  if should_auto_approve decision then
    let auto :=
      { approval_request with
          approval_status := ApprovalStatus.auto_approved
          approved_at := some now
          approved_by := some "system" }
    (auto, s, [])
  else
    let stored := { s with pending := alistInsert s.pending request_id approval_request }
    (approval_request, stored, [approval_request])

/-- `approve_request`: fails on an unknown id; on an expired request it marks
the request `TIMEOUT` in place (the request stays in `pending_requests`) and
fails; otherwise it approves, appends to history and deletes from pending. -/
def approve_request (s : HilState) (now : ℚ) (request_id approved_by : String) :
    Bool × HilState :=
  match alistLookup s.pending request_id with
  | none => (false, s)
  | some request =>
    if now > request.expires_at then
      let timed := { request with approval_status := ApprovalStatus.timeout }
      (false, { s with pending := alistInsert s.pending request_id timed })
    else
      let resolved :=
        { request with
            approval_status := ApprovalStatus.approved
            approved_by := some approved_by
            approved_at := some now }
      (true,
        { pending := alistErase s.pending request_id
          history := s.history ++ [resolved] })

/-- `reject_request`: fails on an unknown id; otherwise rejects unconditionally
(no expiry check in the source), appends to history, deletes from pending. -/
def reject_request (s : HilState) (now : ℚ) (request_id rejected_by reason : String) :
    Bool × HilState :=
  match alistLookup s.pending request_id with
  | none => (false, s)
  | some request =>
    let resolved :=
      { request with
          approval_status := ApprovalStatus.rejected
          approved_by := some rejected_by
          approved_at := some now
          rejection_reason := some reason }
    (true,
      { pending := alistErase s.pending request_id
        history := s.history ++ [resolved] })

/-- `get_pending_requests`: `list(self.pending_requests.values())`. -/
def get_pending_requests (s : HilState) : List ApprovalRequest :=
  s.pending.map Prod.snd

/-- `get_approval_history`: `self.approval_history[-limit:]` (Python slice:
`[-0:]` is the whole list). -/
def get_approval_history (s : HilState) (limit : ℕ) : List ApprovalRequest :=
  if limit = 0 then s.history else s.history.drop (s.history.length - limit)

/-- The dict returned by `get_approval_stats`; when the history is empty the
source returns only a zero `total_requests` key, modelled by the defaults. -/
structure ApprovalStats where
  total_requests : ℕ
  approved : ℕ := 0
  auto_approved : ℕ := 0
  rejected : ℕ := 0
  timeout : ℕ := 0
  approval_rate : ℚ := 0
  auto_approval_rate : ℚ := 0
  pending : ℕ := 0
deriving DecidableEq, Repr

/-- `get_approval_stats`. -/
def get_approval_stats (s : HilState) : ApprovalStats :=
  let total := s.history.length
  if total = 0 then { total_requests := 0 }
  else
    let approved := s.history.countP (fun r => decide (r.approval_status = ApprovalStatus.approved))
    let auto := s.history.countP (fun r => decide (r.approval_status = ApprovalStatus.auto_approved))
    let rejected := s.history.countP (fun r => decide (r.approval_status = ApprovalStatus.rejected))
    let timedout := s.history.countP (fun r => decide (r.approval_status = ApprovalStatus.timeout))
    { total_requests := total
      approved := approved
      auto_approved := auto
      rejected := rejected
      timeout := timedout
      approval_rate := ((approved : ℚ) + (auto : ℚ)) / (total : ℚ)
      auto_approval_rate := (auto : ℚ) / (total : ℚ)
      pending := s.pending.length }

/-! ### human_in_the_loop.py: risk assessment -/

/-- The `decision.max_loss and decision.max_loss > 0.5` test (a `None` or
zero `max_loss` is falsy in Python; `0 > 0.5` is false anyway). -/
def max_loss_fires (max_loss : Option ℚ) : Bool :=
  match max_loss with
  | some m => decide (m > 1 / 2)
  | none => false

/-- `assess_trading_risk`, translated if-for-if from the source. -/
def assess_trading_risk (decision : TradingDecision) : RiskLevel :=
  if decision.amount_sol > 2 then RiskLevel.high
  else if decision.confidence_score < 3 / 5 then RiskLevel.high
  else if decision.confidence_score < 4 / 5 then RiskLevel.medium
  else if max_loss_fires decision.max_loss then RiskLevel.high
  else if decision.strategy_type = "sandwich" ∨ decision.strategy_type = "liquidation" then
    RiskLevel.medium
  else RiskLevel.low

/-- First-match-wins evaluation of an ordered rule list with a default. -/
def first_match : List (Bool × RiskLevel) → RiskLevel → RiskLevel
  | [], default => default
  | (c, r) :: t, default => if c then r else first_match t default

/-- The risk rule chain as the spec words it: an ordered first-match-wins list
of guarded rules with default `Low`. -/
def assess_trading_risk_rules (amount confidence : ℚ) (max_loss : Option ℚ)
    (strategy : String) : RiskLevel :=
  first_match
    [(decide (amount > 2), RiskLevel.high),
     (decide (confidence < 3 / 5), RiskLevel.high),
     (decide (confidence < 4 / 5), RiskLevel.medium),
     (max_loss_fires max_loss, RiskLevel.high),
     (decide (strategy = "sandwich" ∨ strategy = "liquidation"), RiskLevel.medium)]
    RiskLevel.low

/-! ### Concrete inputs used by scenarios and counterexamples -/

/-- A High-risk decision whose model reports full confidence. -/
def decisionHighConf1 : TradingDecision :=
  { decision_id := "d-high"
    strategy_type := "arbitrage"
    action := "buy"
    token_symbol := "SOL"
    amount_sol := 1
    confidence_score := 1
    risk_level := RiskLevel.high
    reasoning := "model fully confident" }

/-- Scenario B input of the spec: amount 3.0, confidence 0.9, max_loss 0.05,
strategy arbitrage. -/
def decisionScenarioB : TradingDecision :=
  { decision_id := "d-b"
    strategy_type := "arbitrage"
    action := "buy"
    token_symbol := "SOL"
    amount_sol := 3
    confidence_score := 9 / 10
    risk_level := RiskLevel.low
    reasoning := "scenario b"
    max_loss := some (1 / 20) }

/-- A Low-risk decision with confidence 0.9 (auto-approvable: 0.9 ≥ 0.85). -/
def decisionLowConf09 : TradingDecision :=
  { decision_id := "d-low"
    strategy_type := "arbitrage"
    action := "buy"
    token_symbol := "SOL"
    amount_sol := 1
    confidence_score := 9 / 10
    risk_level := RiskLevel.low
    reasoning := "scenario c" }

/-- A decision backing the expired-request counterexamples. -/
def decisionMedium : TradingDecision :=
  { decision_id := "d-med"
    strategy_type := "arbitrage"
    action := "buy"
    token_symbol := "SOL"
    amount_sol := 1
    confidence_score := 7 / 10
    risk_level := RiskLevel.medium
    reasoning := "pending decision" }

/-- A pending approval request created at time 0 that expires at time 10. -/
def reqPending : ApprovalRequest :=
  { request_id := "r1"
    decision := decisionMedium
    approval_status := ApprovalStatus.pending
    created_at := 0
    expires_at := 10 }

/-- Manager state holding the single pending request `reqPending`. -/
def hilWithPending : HilState := { pending := [("r1", reqPending)], history := [] }

/-! ### multi_agent_system.py: data model -/

/-- `AgentRole` enum. -/
inductive AgentRole
  | sentiment_analyzer
  | technical_analyst
  | risk_assessor
  | strategy_coordinator
  | action_executor
deriving DecidableEq, Repr

/-- The `.value` string of an `AgentRole`. -/
def AgentRole.value : AgentRole → String
  | AgentRole.sentiment_analyzer => "sentiment_analyzer"
  | AgentRole.technical_analyst => "technical_analyst"
  | AgentRole.risk_assessor => "risk_assessor"
  | AgentRole.strategy_coordinator => "strategy_coordinator"
  | AgentRole.action_executor => "action_executor"

/-- `AgentAnalysis` dataclass (the opaque `data` map and the string timestamp
are not read by the synthesis step and are omitted). -/
structure AgentAnalysis where
  agent_role : AgentRole
  analysis_type : String
  confidence : ℚ
  recommendation : String
  reasoning : String
deriving DecidableEq, Repr

/-- An agent as `MessageBus.register_agent` sees it: its `role` attribute plus
an identity distinguishing distinct `BaseAgent` instances. -/
structure BusAgent where
  role : AgentRole
  agent_id : ℕ
deriving DecidableEq, Repr

/-- The `MessageBus.agents` dict (`register_agent` touches nothing else). -/
structure MessageBus where
  agents : List (AgentRole × BusAgent)
deriving DecidableEq, Repr

/-- A bus with no registered agents (fresh `__init__`). -/
def busEmpty : MessageBus := { agents := [] }

/-- `register_agent`: the plain dict assignment
`self.agents[agent.role] = agent` — no already-registered check. -/
def register_agent (bus : MessageBus) (agent : BusAgent) : MessageBus :=
  { bus with agents := alistInsert bus.agents agent.role agent }

/-! ### multi_agent_system.py: synthesis (weighted voting) -/

/-- The dict returned by `_synthesize_analyses` (the `agent_count` and
`weights` keys are recoverable from the inputs and omitted). -/
structure SynthesisResult where
  recommendation : String
  confidence : ℚ
  reasoning : String
deriving DecidableEq, Repr

/-- `total_weight = sum(analysis.confidence for analysis in analyses)`. -/
def total_weight (analyses : List AgentAnalysis) : ℚ :=
  (analyses.map AgentAnalysis.confidence).sum

/-- One step of the weighting loop body over `(buy, sell, hold)` buckets. -/
def add_weights (acc : ℚ × ℚ × ℚ) (a : AgentAnalysis) : ℚ × ℚ × ℚ :=
  if a.recommendation == "BUY" || a.recommendation == "BULLISH" then
    (acc.1 + a.confidence, acc.2.1, acc.2.2)
  else if a.recommendation == "SELL" || a.recommendation == "BEARISH" then
    (acc.1, acc.2.1 + a.confidence, acc.2.2)
  else
    (acc.1, acc.2.1, acc.2.2 + a.confidence)

/-- The `for analysis in analyses` accumulation loop. -/
def accumulate_weights (acc : ℚ × ℚ × ℚ) : List AgentAnalysis → ℚ × ℚ × ℚ
  | [] => acc
  | a :: t => accumulate_weights (add_weights acc a) t

/-- The reasoning string built from the per-agent parts (the two-decimal float
formatting of each confidence is abstracted to the exact rational). -/
def collab_reasoning (analyses : List AgentAnalysis) : String :=
  "Collaborative analysis: " ++
    String.intercalate "; "
      (analyses.map (fun a =>
        a.agent_role.value ++ ": " ++ a.recommendation ++ " (" ++ toString a.confidence ++ ")"))

/-- `_synthesize_analyses`, translated branch-for-branch from the source. -/
def synthesize_analyses (analyses : List AgentAnalysis) : SynthesisResult :=
  if analyses = [] then
    { recommendation := "HOLD", confidence := 0, reasoning := "No analyses available" }
  else
    let tw := total_weight analyses
    if tw = 0 then
      { recommendation := "HOLD", confidence := 0, reasoning := "All analyses have zero confidence" }
    else
      let w := accumulate_weights (0, 0, 0) analyses
      if w.1 > w.2.1 ∧ w.1 > w.2.2 then
        { recommendation := "BUY", confidence := w.1 / tw, reasoning := collab_reasoning analyses }
      else if w.2.1 > w.1 ∧ w.2.1 > w.2.2 then
        { recommendation := "SELL", confidence := w.2.1 / tw, reasoning := collab_reasoning analyses }
      else
        { recommendation := "HOLD", confidence := w.2.2 / tw, reasoning := collab_reasoning analyses }

/-- The buy bucket as the spec words it: total confidence of the analyses
whose recommendation is `BUY` or `BULLISH`. -/
def buy_weight (analyses : List AgentAnalysis) : ℚ :=
  ((analyses.filter fun a => a.recommendation == "BUY" || a.recommendation == "BULLISH").map
    AgentAnalysis.confidence).sum

/-- The sell bucket: total confidence of `SELL`/`BEARISH` analyses. -/
def sell_weight (analyses : List AgentAnalysis) : ℚ :=
  ((analyses.filter fun a => a.recommendation == "SELL" || a.recommendation == "BEARISH").map
    AgentAnalysis.confidence).sum

/-- The hold bucket: total confidence of everything else. -/
def hold_weight (analyses : List AgentAnalysis) : ℚ :=
  ((analyses.filter fun a =>
      !(a.recommendation == "BUY" || a.recommendation == "BULLISH") &&
      !(a.recommendation == "SELL" || a.recommendation == "BEARISH")).map
    AgentAnalysis.confidence).sum

/-- Weighted voting as the spec words it: the bucket with the strictly
greatest total weight wins, ties default to hold, and the final confidence is
the winning bucket's weight over the total weight. -/
def synthesize_claimed (analyses : List AgentAnalysis) : String × ℚ :=
  let b := buy_weight analyses
  let s := sell_weight analyses
  let h := hold_weight analyses
  let tw := total_weight analyses
  if b > s ∧ b > h then ("BUY", b / tw)
  else if s > b ∧ s > h then ("SELL", s / tw)
  else ("HOLD", h / tw)

/-- Scenario A input of the spec: `(BUY, 0.8)`, `(BUY, 0.6)`, `(SELL, 0.9)`. -/
def scenarioA : List AgentAnalysis :=
  [{ agent_role := AgentRole.sentiment_analyzer
     analysis_type := "sentiment_analysis"
     confidence := 4 / 5
     recommendation := "BUY"
     reasoning := "a1" },
   { agent_role := AgentRole.technical_analyst
     analysis_type := "technical_analysis"
     confidence := 3 / 5
     recommendation := "BUY"
     reasoning := "a2" },
   { agent_role := AgentRole.risk_assessor
     analysis_type := "risk_assessment"
     confidence := 9 / 10
     recommendation := "SELL"
     reasoning := "a3" }]

/-- An analysis with zero confidence, for the degenerate-synthesis witness. -/
def zeroConfAnalysis : AgentAnalysis :=
  { agent_role := AgentRole.sentiment_analyzer
    analysis_type := "sentiment_analysis"
    confidence := 0
    recommendation := "NEUTRAL"
    reasoning := "zero" }

/-! ### multi_agent_system.py: technical analyst -/

/-- The `macd` dict in `_calculate_macd`'s result. -/
structure MacdData where
  macd : ℚ
  signal : ℚ
  histogram : ℚ
deriving DecidableEq, Repr

/-- A dynamically typed indicator value, so that the
`isinstance(macd_data, dict)` guard in `_generate_signals` stays meaningful. -/
inductive MacdVal
  | dictVal (m : MacdData)
  | numVal (q : ℚ)
deriving DecidableEq, Repr

/-- The indicators dict built by `_calculate_indicators` (the `none` case of
`Option Indicators` models the empty dict returned for an empty series). -/
structure Indicators where
  sma_20 : ℚ
  sma_50 : ℚ
  current_price : ℚ
  rsi : ℚ
  macd : MacdVal
deriving DecidableEq, Repr

/-- Python's `l[-n:]` slice for `n > 0`. -/
def lastN {α : Type} (n : ℕ) (l : List α) : List α :=
  l.drop (l.length - n)

/-- Consecutive differences `prices[i] - prices[i-1]`. -/
def pairDiffs : List ℚ → List ℚ
  | a :: b :: t => (b - a) :: pairDiffs (b :: t)
  | _ => []

/-- `_calculate_rsi`. -/
def calculate_rsi (prices : List ℚ) : ℚ :=
  if prices.length < 14 then 50
  else
    let changes := pairDiffs prices
    let gains := changes.map (fun c => if c > 0 then c else 0)
    let losses := changes.map (fun c => if c > 0 then 0 else |c|)
    let avg_gain := (lastN 14 gains).sum / 14
    let avg_loss := (lastN 14 losses).sum / 14
    if avg_loss = 0 then 100
    else
      let rs := avg_gain / avg_loss
      100 - 100 / (1 + rs)

/-- `_calculate_macd`. -/
def calculate_macd (prices : List ℚ) : MacdData :=
  if prices.length < 26 then { macd := 0, signal := 0, histogram := 0 }
  else
    let ema_12 := (prices.getLast?).getD 0
    let ema_26 := (lastN 26 prices).sum / 26
    let macd_line := ema_12 - ema_26
    let signal_line := macd_line * (9 / 10)
    { macd := macd_line, signal := signal_line, histogram := macd_line - signal_line }

/-- `_calculate_indicators`: returns the empty dict (`none`) for an empty
price series, otherwise the five indicators over the last 50 prices. -/
def calculate_indicators (price_data : List ℚ) : Option Indicators :=
  if price_data = [] then none
  else
    let prices := lastN 50 price_data
    let sma_20 :=
      if 20 ≤ prices.length then (lastN 20 prices).sum / 20 else (prices.getLast?).getD 0
    let sma_50 := prices.sum / (prices.length : ℚ)
    some
      { sma_20 := sma_20
        sma_50 := sma_50
        current_price := (prices.getLast?).getD 0
        rsi := calculate_rsi prices
        macd := MacdVal.dictVal (calculate_macd prices) }

/-- One element of the signal list built by `_generate_signals`. -/
structure Signal where
  indicator : String
  direction : String
  strength : ℚ
deriving DecidableEq, Repr

/-- `_generate_signals`: `indicators.get(key, default)` on the empty dict
(`none`) yields the defaults 0 / 0 / 50 / `{}`; the MACD signal is appended
only when the `macd` value is a dict. -/
def generate_signals (indicators : Option Indicators) : List Signal :=
  let current_price := match indicators with | some i => i.current_price | none => 0
  let sma_20 := match indicators with | some i => i.sma_20 | none => 0
  let rsi := match indicators with | some i => i.rsi | none => 50
  let sma_sig :=
    if current_price > sma_20 then Signal.mk "SMA" "bullish" (3 / 5)
    else Signal.mk "SMA" "bearish" (3 / 5)
  let rsi_sig :=
    if rsi < 30 then Signal.mk "RSI" "bullish" (4 / 5)
    else if rsi > 70 then Signal.mk "RSI" "bearish" (4 / 5)
    else Signal.mk "RSI" "neutral" (3 / 10)
  let macd_sigs :=
    match indicators with
    | none =>
      [if (0 : ℚ) > 0 then Signal.mk "MACD" "bullish" (7 / 10)
       else Signal.mk "MACD" "bearish" (7 / 10)]
    | some i =>
      match i.macd with
      | MacdVal.dictVal m =>
        [if m.histogram > 0 then Signal.mk "MACD" "bullish" (7 / 10)
         else Signal.mk "MACD" "bearish" (7 / 10)]
      | MacdVal.numVal _ => []
  sma_sig :: rsi_sig :: macd_sigs

/-! ### langgraph_flow.py: continuation logic -/

/-- `ActionResult` (the payload, timing and metadata fields are not read by
the continuation logic). -/
structure ActionResult where
  success : Bool
  error : Option String := none
deriving DecidableEq, Repr

/-- One entry appended by `_act_node` to `state.actions_taken`. -/
structure ActionBatch where
  plan : String
  results : List ActionResult
deriving DecidableEq, Repr

/-- The fields of `AgentState` read or written by `_decide_node` and
`_evaluate_continuation`. -/
structure AgentState where
  iteration_count : ℕ
  max_iterations : ℕ
  actions_taken : List ActionBatch
  should_continue : Bool
deriving DecidableEq, Repr

/-- `_evaluate_continuation`, translated branch-for-branch: stop at the
iteration budget, stop when no actions were ever recorded, stop when every
action of the latest batch succeeded. -/
def evaluate_continuation (s : AgentState) : Bool :=
  if s.max_iterations ≤ s.iteration_count then false
  else if s.actions_taken = [] then false
  else
    match s.actions_taken.getLast? with
    | some batch => if batch.results.all (fun r => r.success) then false else true
    | none => true

/-- `_decide_node`: increment `iteration_count`, then store the continuation
verdict in `should_continue`. -/
def decide_node (s : AgentState) : AgentState :=
  let s1 := { s with iteration_count := s.iteration_count + 1 }
  { s1 with should_continue := evaluate_continuation s1 }

/-- A failed action (Scenario E, iteration 1). -/
def actionFail : ActionResult := { success := false, error := some "tool error" }

/-- A successful action (Scenario E, iteration 2). -/
def actionOk : ActionResult := { success := true }

/-- Scenario E state after iteration 1's act step: one derived action, failed. -/
def iter1State : AgentState :=
  { iteration_count := 0
    max_iterations := 5
    actions_taken := [{ plan := "plan1", results := [actionFail] }]
    should_continue := true }

/-- Scenario E state after the first decide step. -/
def iter1Decided : AgentState := decide_node iter1State

/-- Scenario E state after iteration 2's act step: one action, succeeded. -/
def iter2State : AgentState :=
  { iter1Decided with
      actions_taken := iter1Decided.actions_taken ++ [{ plan := "plan2", results := [actionOk] }] }

/-- Scenario E state after the second decide step. -/
def iter2Decided : AgentState := decide_node iter2State

/-- The in-place `TIMEOUT` marking done by `approve_request` on expiry. -/
def mark_timeout (req : ApprovalRequest) : ApprovalRequest :=
  { req with approval_status := ApprovalStatus.timeout }

/-- `decisionHighConf1` with confidence just below the 1.0 threshold. -/
def decisionHighConf099 : TradingDecision :=
  { decisionHighConf1 with confidence_score := 99 / 100 }

/-- `decisionHighConf1` at Critical risk. -/
def decisionCriticalConf1 : TradingDecision :=
  { decisionHighConf1 with risk_level := RiskLevel.critical }

/-- What `reject_request` at time 21 by "bob" makes of `reqPending`. -/
def reqRejectedAt21 : ApprovalRequest :=
  { reqPending with
      approval_status := ApprovalStatus.rejected
      approved_by := some "bob"
      approved_at := some 21
      rejection_reason := some "no" }

/-- What `reject_request` at time 20 by "bob" makes of `reqPending`. -/
def reqRejectedAt20 : ApprovalRequest :=
  { reqPending with
      approval_status := ApprovalStatus.rejected
      approved_by := some "bob"
      approved_at := some 20
      rejection_reason := some "changed" }

/-- A first technical-analyst agent instance. -/
def busAgent1 : BusAgent := { role := AgentRole.technical_analyst, agent_id := 1 }

/-- A second, distinct agent instance for the same role. -/
def busAgent2 : BusAgent := { role := AgentRole.technical_analyst, agent_id := 2 }

/-! ### Helper lemmas -/

theorem alistLookup_insert {κ α : Type} [DecidableEq κ] (l : List (κ × α)) (k : κ) (v : α) :
    alistLookup (alistInsert l k v) k = some v := by
  induction l with
  | nil => simp [alistInsert, alistLookup]
  | cons p t ih =>
    obtain ⟨k', v'⟩ := p
    by_cases h : k' = k
    · subst h
      simp [alistInsert, alistLookup]
    · simp [alistInsert, alistLookup, h, ih]

theorem alistLookup_erase {κ α : Type} [DecidableEq κ] (l : List (κ × α)) (k : κ) :
    alistLookup (alistErase l k) k = none := by
  induction l with
  | nil => rfl
  | cons p t ih =>
    obtain ⟨k', v'⟩ := p
    by_cases h : k' = k
    · simpa [alistErase, List.filter_cons, h] using ih
    · simpa [alistErase, List.filter_cons, h, alistLookup] using ih

/-! ### Claim theorems -/

/-- Claim C1 (code bug evaluation): a High-risk decision with
`confidence_score = 1.0` IS auto-approved by the code (`1.0 >= 1.0`), even
though the inline comments on the threshold table say High/Critical are never
auto-approved; just below 1.0 the claimed behavior holds. -/
theorem c1_high_conf_one_is_auto_approved :
    should_auto_approve decisionHighConf1 = true ∧
    (request_approval hilEmpty 0 "r-auto" decisionHighConf1).1.approval_status =
      ApprovalStatus.auto_approved ∧
    should_auto_approve decisionHighConf099 = false ∧
    should_auto_approve decisionCriticalConf1 = true := by
  have h1 : should_auto_approve decisionHighConf1 = true := by
    simp [should_auto_approve, auto_approval_thresholds, decisionHighConf1]
  refine ⟨h1, ?_, ?_, ?_⟩
  · simp [request_approval, h1]
  · simp [should_auto_approve, auto_approval_thresholds, decisionHighConf099, decisionHighConf1]
    norm_num
  · simp [should_auto_approve, auto_approval_thresholds, decisionCriticalConf1, decisionHighConf1]

/-- Claim C2 counterexample: an expired `approve_request` call marks the
request `Timeout` — a terminal state — but leaves it in the pending table, and
a subsequent `reject_request` on the same id returns true and transitions the
request from `Timeout` to `Rejected`, mutating the history. -/
theorem c2_counterexample :
    (approve_request hilWithPending 20 "r1" "alice").1 = false ∧
    alistLookup (approve_request hilWithPending 20 "r1" "alice").2.pending "r1" =
      some (mark_timeout reqPending) ∧
    (reject_request (approve_request hilWithPending 20 "r1" "alice").2 21 "r1" "bob" "no").1 =
      true ∧
    (reject_request (approve_request hilWithPending 20 "r1" "alice").2 21 "r1" "bob"
        "no").2.history = [reqRejectedAt21] := by
  refine ⟨?_, ?_, ?_, ?_⟩ <;>
    norm_num [approve_request, reject_request, hilWithPending, alistLookup, alistInsert,
      alistErase, reqPending, mark_timeout, reqRejectedAt21, decisionMedium]

/-- Claim C2 (amended): a request that has been moved to the history (the
resolution path of every successful approve/reject) is no longer in the
pending table, and calls on ids absent from the pending table return false and
leave the state — status, pending table and history — unchanged; successful
approve/reject calls do remove the id from the pending table. The exception
forced by the counterexample: a request marked `Timeout` in place by an
expired `approve_request` call stays in the pending table and can still be
rejected. -/
theorem c2_resolved_requests_immutable :
    ∀ (s : HilState) (now now2 : ℚ) (rid a b reason : String),
      (alistLookup s.pending rid = none →
        approve_request s now rid a = (false, s) ∧
        reject_request s now2 rid b reason = (false, s)) ∧
      ((approve_request s now rid a).1 = true →
        alistLookup (approve_request s now rid a).2.pending rid = none) ∧
      ((reject_request s now2 rid b reason).1 = true →
        alistLookup (reject_request s now2 rid b reason).2.pending rid = none) := by
  intro s now now2 rid a b reason
  refine ⟨?_, ?_, ?_⟩
  · intro h
    exact ⟨by simp [approve_request, h], by simp [reject_request, h]⟩
  · intro h
    cases hl : alistLookup s.pending rid with
    | none => simp [approve_request, hl] at h
    | some req =>
      by_cases hexp : now > req.expires_at
      · simp [approve_request, hl, hexp] at h
      · simp [approve_request, hl, hexp, alistLookup_erase]
  · intro h
    cases hl : alistLookup s.pending rid with
    | none => simp [reject_request, hl] at h
    | some req => simp [reject_request, hl, alistLookup_erase]

theorem c2_witness :
    alistLookup hilEmpty.pending "rX" = none ∧
    approve_request hilEmpty 5 "rX" "alice" = (false, hilEmpty) ∧
    reject_request hilEmpty 6 "rX" "bob" "why" = (false, hilEmpty) := by
  have h := c2_resolved_requests_immutable hilEmpty 5 6 "rX" "alice" "bob" "why"
  exact ⟨rfl, (h.1 rfl).1, (h.1 rfl).2⟩

/-- Claim C3 counterexample: `reject_request` on a pending request whose
`expires_at` (10) is already past at call time (20) succeeds and records the
request as `Rejected` — it neither fails nor converts it to `Timeout`. -/
theorem c3_counterexample :
    (20 : ℚ) > reqPending.expires_at ∧
    (reject_request hilWithPending 20 "r1" "bob" "changed").1 = true ∧
    (reject_request hilWithPending 20 "r1" "bob" "changed").2.history = [reqRejectedAt20] := by
  refine ⟨by norm_num [reqPending], ?_, ?_⟩
  · simp [reject_request, hilWithPending, alistLookup]
  · simp [reject_request, hilWithPending, alistLookup, reqRejectedAt20]

/-- Claim C3 (amended): `approve_request` succeeds exactly on a pending-table
request that is not past `expires_at`, and an expired call fails and marks the
request `Timeout` in place; `reject_request`, however, succeeds on any
pending-table request regardless of `expires_at` and never converts it to
`Timeout`. -/
theorem c3_expiry_asymmetric :
    ∀ (s : HilState) (now : ℚ) (rid a b reason : String) (req : ApprovalRequest),
      alistLookup s.pending rid = some req →
      ((approve_request s now rid a).1 = true ↔ ¬ now > req.expires_at) ∧
      (now > req.expires_at →
        approve_request s now rid a =
          (false, { s with pending := alistInsert s.pending rid (mark_timeout req) })) ∧
      (reject_request s now rid b reason).1 = true := by
  intro s now rid a b reason req h
  refine ⟨?_, ?_, ?_⟩
  · by_cases hexp : now > req.expires_at <;> simp [approve_request, h, hexp]
  · intro hexp
    simp [approve_request, h, hexp, mark_timeout]
  · simp [reject_request, h]

theorem c3_witness :
    alistLookup hilWithPending.pending "r1" = some reqPending ∧
    (20 : ℚ) > reqPending.expires_at ∧
    (reject_request hilWithPending 20 "r1" "carol" "late").1 = true := by
  have h := c3_expiry_asymmetric hilWithPending 20 "r1" "alice" "carol" "late" reqPending rfl
  exact ⟨rfl, by norm_num [reqPending], h.2.2⟩

/-- Claim C8 counterexample: registering a second agent for an
already-registered role does not fail — the dict assignment silently replaces
the existing binding (last registration wins, table size stays 1). -/
theorem c8_counterexample :
    alistLookup (register_agent (register_agent busEmpty busAgent1) busAgent2).agents
      AgentRole.technical_analyst = some busAgent2 ∧
    busAgent2 ≠ busAgent1 ∧
    (register_agent (register_agent busEmpty busAgent1) busAgent2).agents.length = 1 := by
  refine ⟨?_, by simp [busAgent1, busAgent2], ?_⟩
  · simp [register_agent, busEmpty, busAgent1, busAgent2, alistInsert, alistLookup]
  · simp [register_agent, busEmpty, busAgent1, busAgent2, alistInsert]

/-- Claim C8 (amended): `register_agent` binds the role to the agent
unconditionally; registering a role that is already registered succeeds and
replaces the existing binding rather than being rejected. -/
theorem c8_register_replaces :
    ∀ (bus : MessageBus) (agent : BusAgent),
      alistLookup (register_agent bus agent).agents agent.role = some agent := by
  intro bus agent
  exact alistLookup_insert bus.agents agent.role agent

/-- Claim C9: when `request_approval` auto-approves, the returned request is
`AutoApproved`, the pending table and history are untouched, no callback is
invoked, and therefore `get_pending_requests`, `get_approval_history` and
`get_approval_stats` are all unchanged. -/
theorem c9_auto_approve_frame :
    ∀ (s : HilState) (now : ℚ) (rid : String) (d : TradingDecision),
      should_auto_approve d = true →
      (request_approval s now rid d).1.approval_status = ApprovalStatus.auto_approved ∧
      (request_approval s now rid d).2.1 = s ∧
      (request_approval s now rid d).2.2 = [] ∧
      get_pending_requests (request_approval s now rid d).2.1 = get_pending_requests s ∧
      (∀ limit, get_approval_history (request_approval s now rid d).2.1 limit =
        get_approval_history s limit) ∧
      get_approval_stats (request_approval s now rid d).2.1 = get_approval_stats s := by
  intro s now rid d h
  simp [request_approval, h]

theorem c9_witness :
    should_auto_approve decisionLowConf09 = true ∧
    (request_approval hilWithPending 0 "r-w" decisionLowConf09).1.approval_status =
      ApprovalStatus.auto_approved ∧
    (request_approval hilWithPending 0 "r-w" decisionLowConf09).2.1 = hilWithPending ∧
    (request_approval hilWithPending 0 "r-w" decisionLowConf09).2.2 = [] := by
  have hauto : should_auto_approve decisionLowConf09 = true := by
    simp [should_auto_approve, auto_approval_thresholds, decisionLowConf09]
    norm_num
  have h := c9_auto_approve_frame hilWithPending 0 "r-w" decisionLowConf09 hauto
  exact ⟨hauto, h.1, h.2.1, h.2.2.1⟩


/-- The weighting loop equals the three filter-based bucket sums, shifted by
the accumulator. -/
theorem accumulate_weights_eq (l : List AgentAnalysis) :
    ∀ acc : ℚ × ℚ × ℚ,
      accumulate_weights acc l =
        (acc.1 + buy_weight l, acc.2.1 + sell_weight l, acc.2.2 + hold_weight l) := by
  induction l with
  | nil =>
    intro acc
    simp [accumulate_weights, buy_weight, sell_weight, hold_weight]
  | cons a t ih =>
    intro acc
    by_cases hb : a.recommendation = "BUY" ∨ a.recommendation = "BULLISH"
    · rcases hb with h | h <;>
        (simp only [accumulate_weights, add_weights, h]
         rw [ih]
         simp [buy_weight, sell_weight, hold_weight, List.filter_cons, add_assoc, h])
    · by_cases hs : a.recommendation = "SELL" ∨ a.recommendation = "BEARISH"
      · rcases hs with h | h <;>
          (simp only [accumulate_weights, add_weights, h]
           rw [ih]
           simp [buy_weight, sell_weight, hold_weight, List.filter_cons, add_assoc, h])
      · push_neg at hb hs
        obtain ⟨hb1, hb2⟩ := hb
        obtain ⟨hs1, hs2⟩ := hs
        have hbf : (a.recommendation == "BUY" || a.recommendation == "BULLISH") = false := by
          simp [hb1, hb2]
        have hsf : (a.recommendation == "SELL" || a.recommendation == "BEARISH") = false := by
          simp [hs1, hs2]
        simp only [accumulate_weights, add_weights, hbf, hsf, Bool.false_eq_true, if_false]
        rw [ih]
        simp [buy_weight, sell_weight, hold_weight, List.filter_cons, hbf, hsf, hb1, hb2,
          hs1, hs2, add_assoc]

/-- Claim C4: synthesis is weighted voting — each analysis's confidence goes
to the bucket its recommendation maps to, the strictly greatest bucket wins
(ties default to hold), and the final confidence is the winning bucket's
weight over the total weight; on Scenario A (`(BUY,0.8),(BUY,0.6),(SELL,0.9)`)
the result is `BUY` with confidence `1.4/2.3 = 14/23`. -/
theorem c4_weighted_voting :
    (∀ analyses, total_weight analyses ≠ 0 →
      ((synthesize_analyses analyses).recommendation,
        (synthesize_analyses analyses).confidence) = synthesize_claimed analyses) ∧
    (synthesize_analyses scenarioA).recommendation = "BUY" ∧
    (synthesize_analyses scenarioA).confidence = 14 / 23 := by
  have hmain : ∀ analyses, total_weight analyses ≠ 0 →
      ((synthesize_analyses analyses).recommendation,
        (synthesize_analyses analyses).confidence) = synthesize_claimed analyses := by
    intro analyses h
    have hne : analyses ≠ [] := by
      intro he
      subst he
      exact h (by simp [total_weight])
    unfold synthesize_analyses synthesize_claimed
    rw [if_neg hne, if_neg h, accumulate_weights_eq]
    simp only [zero_add]
    split_ifs <;> rfl
  refine ⟨hmain, ?_, ?_⟩
  · have h := hmain scenarioA (by norm_num [total_weight, scenarioA])
    have : synthesize_claimed scenarioA = ("BUY", 14 / 23) := by
      simp [synthesize_claimed, buy_weight, sell_weight, hold_weight, total_weight,
        scenarioA, List.filter_cons]
      norm_num
    rw [this] at h
    exact congrArg Prod.fst h
  · have h := hmain scenarioA (by norm_num [total_weight, scenarioA])
    have : synthesize_claimed scenarioA = ("BUY", 14 / 23) := by
      simp [synthesize_claimed, buy_weight, sell_weight, hold_weight, total_weight,
        scenarioA, List.filter_cons]
      norm_num
    rw [this] at h
    exact congrArg Prod.snd h

theorem c4_witness :
    total_weight scenarioA ≠ 0 ∧
    ((synthesize_analyses scenarioA).recommendation,
      (synthesize_analyses scenarioA).confidence) = synthesize_claimed scenarioA := by
  have h : total_weight scenarioA ≠ 0 := by norm_num [total_weight, scenarioA]
  exact ⟨h, c4_weighted_voting.1 scenarioA h⟩

/-- Claim C7: an empty analysis list, or a nonempty one whose confidences sum
to zero, yields the ordinary `HOLD`/0 result with the corresponding explicit
reasoning string — `synthesize_analyses` is total, no error path exists. -/
theorem c7_degenerate_synthesis :
    synthesize_analyses [] = ⟨"HOLD", 0, "No analyses available"⟩ ∧
    ∀ analyses, analyses ≠ [] → total_weight analyses = 0 →
      synthesize_analyses analyses = ⟨"HOLD", 0, "All analyses have zero confidence"⟩ := by
  refine ⟨rfl, ?_⟩
  intro analyses hne h
  unfold synthesize_analyses
  rw [if_neg hne, if_pos h]

theorem c7_witness :
    [zeroConfAnalysis] ≠ [] ∧
    total_weight [zeroConfAnalysis] = 0 ∧
    synthesize_analyses [zeroConfAnalysis] = ⟨"HOLD", 0, "All analyses have zero confidence"⟩ := by
  refine ⟨by simp, by simp [total_weight, zeroConfAnalysis], ?_⟩
  exact c7_degenerate_synthesis.2 [zeroConfAnalysis] (by simp)
    (by simp [total_weight, zeroConfAnalysis])

/-- Claim C6: `assess_trading_risk` is the first-match-wins rule chain
amount > 2 ⇒ High; confidence < 0.6 ⇒ High; confidence < 0.8 ⇒ Medium;
max_loss > 0.5 ⇒ High; strategy ∈ (sandwich, liquidation) ⇒ Medium; default
Low — and on Scenario B (amount 3.0, confidence 0.9, max_loss 0.05,
strategy arbitrage) the amount rule fires first, giving High. -/
theorem c6_first_match_risk_rules :
    (∀ d : TradingDecision,
      assess_trading_risk d =
        assess_trading_risk_rules d.amount_sol d.confidence_score d.max_loss d.strategy_type) ∧
    assess_trading_risk decisionScenarioB = RiskLevel.high := by
  constructor
  · intro d
    simp only [assess_trading_risk, assess_trading_risk_rules, first_match, decide_eq_true_eq]
  · have h3 : (decisionScenarioB.amount_sol > 2) := by norm_num [decisionScenarioB]
    simp [assess_trading_risk, h3]

/-- Claim C5: after `_decide_node` increments the iteration counter,
continuation is false exactly when the incremented count has reached
`max_iterations`, or no action batch was ever recorded, or every action of the
latest batch succeeded; in Scenario E (max 5, iteration 1 fails, iteration 2
succeeds) the loop continues after iteration 1 and stops after iteration 2. -/
theorem c5_continuation_rule :
    (∀ s : AgentState,
      ((decide_node s).should_continue = false ↔
        s.max_iterations ≤ s.iteration_count + 1 ∨ s.actions_taken = [] ∨
        ∃ batch, s.actions_taken.getLast? = some batch ∧
          ∀ r ∈ batch.results, r.success = true)) ∧
    iter1Decided.should_continue = true ∧
    iter1Decided.iteration_count = 1 ∧
    iter2Decided.should_continue = false ∧
    iter2Decided.iteration_count = 2 := by
  refine ⟨?_, ?_, ?_, ?_, ?_⟩
  · intro s
    simp only [decide_node, evaluate_continuation]
    by_cases h1 : s.max_iterations ≤ s.iteration_count + 1
    · simp [h1]
    · by_cases h2 : s.actions_taken = []
      · simp [h1, h2]
      · cases hl : s.actions_taken.getLast? with
        | none => exact absurd (List.getLast?_eq_none_iff.mp hl) h2
        | some batch =>
          by_cases h3 : ∀ r ∈ batch.results, r.success = true
          · simp [h1, h2, hl, List.all_eq_true, h3]
          · simp [h1, h2, hl, List.all_eq_true, h3]
  · rfl
  · rfl
  · rfl
  · rfl

/-- The signal list for the empty indicators dict. -/
theorem generate_signals_none_names :
    (generate_signals none).map Signal.indicator = ["SMA", "RSI", "MACD"] := by
  decide

/-- The signal list when the `macd` indicator value is a dict. -/
theorem generate_signals_dict_names (i : Indicators) (m : MacdData)
    (h : i.macd = MacdVal.dictVal m) :
    (generate_signals (some i)).map Signal.indicator = ["SMA", "RSI", "MACD"] := by
  simp only [generate_signals, h]
  rw [List.map_cons, List.map_cons, List.map_cons, List.map_nil]
  rw [apply_ite Signal.indicator, apply_ite Signal.indicator, apply_ite Signal.indicator,
    apply_ite Signal.indicator]
  simp

/-- `_calculate_indicators` always stores a dict under the `macd` key. -/
theorem calculate_indicators_macd_dict (pd : List ℚ) (ind : Indicators)
    (h : calculate_indicators pd = some ind) :
    ind.macd = MacdVal.dictVal (calculate_macd (lastN 50 pd)) := by
  by_cases hpd : pd = []
  · simp [calculate_indicators, hpd] at h
  · simp only [calculate_indicators, if_neg hpd, Option.some.injEq] at h
    rw [← h]

/-- Claim C10: for every price series — including an empty one — the signal
list built from `_calculate_indicators`'s output has exactly the three entries
SMA, RSI and MACD, so the winning-signal / total-signal confidence division in
`analyze` has nonzero denominator and a division error cannot occur. -/
theorem c10_signals_always_three :
    ∀ price_data : List ℚ,
      (generate_signals (calculate_indicators price_data)).map Signal.indicator =
        ["SMA", "RSI", "MACD"] ∧
      (generate_signals (calculate_indicators price_data)).length ≠ 0 := by
  intro pd
  have hnames : (generate_signals (calculate_indicators pd)).map Signal.indicator =
      ["SMA", "RSI", "MACD"] := by
    cases hci : calculate_indicators pd with
    | none => exact generate_signals_none_names
    | some ind =>
      exact generate_signals_dict_names ind (calculate_macd (lastN 50 pd))
        (calculate_indicators_macd_dict pd ind hci)
  refine ⟨hnames, ?_⟩
  intro hlen
  have := congrArg List.length hnames
  rw [List.length_map, hlen] at this
  simp at this
